import Mathlib

/-
Verification of the Order Lifecycle and Sequential-ID Persistence Engine of
the campus-canteen backend (src/server.js), as a shallow embedding in Lean.

Conventions of the embedding:
- JS objects become structures; JS strings stay String, JS numbers that the
  engine only increments or compares stay Nat.
- Asynchronous state (the JSON files, the DynamoDB mirror) is passed
  explicitly through a `Store` record; each route is a pure function from
  request data and a `Store` to a response and a new `Store`.
- Nondeterminism of the environment becomes explicit parameters: the current
  date string (`new Date().toDateString()`), the fresh uuid, the random OTP,
  and a Boolean saying whether the best-effort DynamoDB write succeeds.
- The interleaving of logically concurrent `generateOrderID` calls at their
  `await` suspension points is modelled by a small step system (`AllocSys`)
  driven by an explicit schedule.
-/

namespace CampusCanteen

/-- A line item of an order, `{itemId, quantity, unitPrice}` in the request body. -/
structure Item where
  itemId : String
  quantity : Nat
  unitPrice : Nat
  deriving Repr, DecidableEq

/-- The order object built in `app.post('/api/orders')` (src/server.js lines 763-777).
`updatedAt` is absent at creation and only added by the status and cancel
routes, hence `Option`. -/
structure OrderRec where
  id : String
  orderId : String
  userId : String
  adminId : String
  items : List Item
  totalAmount : Nat
  paymentMethod : String
  orderType : String
  scheduledTime : Option String
  status : String
  otp : String
  createdAt : String
  updatedAt : Option String
  pickup : String
  deriving Repr, DecidableEq

/-- The fields of a user record that the order routes read. -/
structure UserRec where
  id : String
  name : String
  phone : String
  email : String
  notifications : Bool
  deriving Repr, DecidableEq

/-- The singleton daily counter record of `order-counter.json`: `{date, counter}`. -/
structure CounterRec where
  date : String
  counter : Nat
  deriving Repr, DecidableEq

/-- The whole persistent state the order routes touch: the durable JSON
collections `orders.json` and `users.json`, the counter file, and the
DynamoDB mirror. `mirror` records the successfully mirrored items and
`mirrorAttempts` counts every attempted mirror write. -/
structure Store where
  orders : List OrderRec
  users : List UserRec
  counter : CounterRec
  mirror : List OrderRec
  mirrorAttempts : Nat
  deriving Repr, DecidableEq

/-- An HTTP response of the order routes: `res.json({success:true, order})`,
or `res.status(code).json({error: msg})`. -/
inductive ApiResp where
  | ok (order : OrderRec)
  | err (status : Nat) (msg : String)
  deriving Repr, DecidableEq

/-- generateOrderID (src/server.js lines 135-148): load the counter, reset it
to 1 if its stored date is not today, else increment; the returned pair is
(the counter as persisted by `saveToJSON` before returning, the formatted
code `CC-#<counter>`). -/
def generateOrderID (today : String) (c : CounterRec) : CounterRec × String :=
  let c2 : CounterRec :=
    if c.date ≠ today then { date := today, counter := 1 }
    else { c with counter := c.counter + 1 }
  (c2, "CC-#" ++ toString c2.counter)

/-- JS `x || d` for a possibly-absent string `x`: the empty string is falsy. -/
def jsOrStr (v : Option String) (d : String) : String :=
  match v with
  | some s => if s = "" then d else s
  | none => d

/-- JS `x || null` for a possibly-absent string: the empty string collapses to null. -/
def jsOrNull (v : Option String) : Option String :=
  match v with
  | some s => if s = "" then none else some s
  | none => none

/-- saveToDynamoDB (src/server.js lines 103-112): one `dynamoDB.put` attempt;
on failure the error is caught and logged and nothing else happens. `ok`
says whether the put succeeds. -/
def saveToDynamoDB (ok : Bool) (st : Store) (item : OrderRec) : Store :=
  { st with
    mirrorAttempts := st.mirrorAttempts + 1,
    mirror := if ok then st.mirror ++ [item] else st.mirror }

/-- Result of `readFromJSON`: either the parsed file contents, or the default
produced by the catch branch. -/
inductive ReadResult (α : Type) where
  | parsed (v : α)
  | emptyArray
  | emptyObject
  deriving Repr, DecidableEq

/-- JS `Array.isArray` applied to the FILENAME string, exactly as the source
writes it on line 99 (`Array.isArray(filename)`): a string is never an
array, so this is constantly false. -/
def jsArrayIsArrayString (_fname : String) : Bool := false

/-- readFromJSON (src/server.js lines 92-101): return the parsed contents on
success; on any read or parse failure log and return
`Array.isArray(filename) ? [] : {}`. `ioResult` is `none` when the
underlying read fails. -/
def readFromJSON (α : Type) (fname : String) (ioResult : Option α) : ReadResult α :=
  match ioResult with
  | some v => ReadResult.parsed v
  | none =>
    if jsArrayIsArrayString fname then ReadResult.emptyArray else ReadResult.emptyObject

/-- saveToJSON (src/server.js lines 83-90): try the write; on failure log the
error and return normally. The result is (the durable contents afterwards,
whether an error was logged); no exception ever propagates to the caller. -/
def saveToJSON (α : Type) (writeOk : Bool) (oldContents : Option α) (data : α) :
    Option α × Bool :=
  if writeOk then (some data, false) else (oldContents, true)

/-- The order object assembled by `app.post('/api/orders')` before persisting. -/
def newOrder (freshId orderId otp createdAt : String)
    (userId adminId : String) (items : List Item) (totalAmount : Nat)
    (paymentMethod : String) (orderType scheduledTime : Option String) : OrderRec :=
  { id := freshId
    orderId := orderId
    userId := userId
    adminId := adminId
    items := items
    totalAmount := totalAmount
    paymentMethod := paymentMethod
    orderType := jsOrStr orderType "instant"
    scheduledTime := jsOrNull scheduledTime
    status := "pending"
    otp := otp
    createdAt := createdAt
    updatedAt := none
    pickup := "Canteen Pickup" }

/-- Error message of the uncaught JS TypeError raised by `user.email` when
`users.find(...)` returned undefined; the catch-all handler sends it back as
`res.status(500).json({error: error.message})`. (The JS text quotes the
property name; the quotes are immaterial to the model.) -/
def undefinedEmailMsg : String := "Cannot read properties of undefined (reading email)"

/-- app.post of /api/orders (src/server.js lines 756-808): allocate the daily
code, build the order, append it to `orders.json`, mirror it best-effort,
then look the owner up — and only then; a missing owner makes `user.email`
throw, which the catch-all turns into a 500. `sendEmail` swallows its own
errors (lines 161-175), so a found owner always yields the success response. -/
def createOrderRoute (today freshId otp createdAt : String) (mirrorOk : Bool)
    (userId adminId : String) (items : List Item) (totalAmount : Nat)
    (paymentMethod : String) (orderType scheduledTime : Option String)
    (st : Store) : ApiResp × Store :=
  let g := generateOrderID today st.counter
  let order := newOrder freshId g.2 otp createdAt userId adminId items
      totalAmount paymentMethod orderType scheduledTime
  let st2 : Store := { st with counter := g.1, orders := st.orders ++ [order] }
  let st3 := saveToDynamoDB mirrorOk st2 order
  match st3.users.find? (fun u => u.id == userId) with
  | none => (ApiResp.err 500 undefinedEmailMsg, st3)
  | some _ => (ApiResp.ok order, st3)

/-- The enriched order returned by `app.get('/api/orders')`: the order spread
together with the denormalized owner display fields. -/
structure EnrichedOrder where
  order : OrderRec
  userName : String
  userPhone : String
  deriving Repr, DecidableEq

/-- Enrichment step of the list route: `user?.name || 'Unknown'` and
`user?.phone || 'N/A'` (src/server.js lines 822-829). -/
def enrichOrder (users : List UserRec) (o : OrderRec) : EnrichedOrder :=
  match users.find? (fun u => u.id == o.userId) with
  | some u =>
    { order := o
      userName := if u.name = "" then "Unknown" else u.name
      userPhone := if u.phone = "" then "N/A" else u.phone }
  | none => { order := o, userName := "Unknown", userPhone := "N/A" }

/-- app.get of /api/orders (src/server.js lines 811-835): filter by the query
parameters that are present, enrich with owner display fields, respond with
`orders.reverse()`. An absent or empty query parameter is `none` here, since
the empty string is falsy in the JS guards. -/
def getOrdersRoute (userId adminId status : Option String) (st : Store) :
    List EnrichedOrder :=
  let o1 : List OrderRec := match userId with
    | some u => st.orders.filter (fun o => o.userId == u)
    | none => st.orders
  let o2 : List OrderRec := match adminId with
    | some a => o1.filter (fun o => o.adminId == a)
    | none => o1
  let o3 : List OrderRec := match status with
    | some s => o2.filter (fun o => o.status == s)
    | none => o2
  (o3.map (enrichOrder st.users)).reverse

/-- In-place mutation of the first element matched by `orders.find` followed
by writing the whole array back: only the first match changes. -/
def updateFirst (p : α → Bool) (f : α → α) : List α → List α
  | [] => []
  | x :: xs => if p x then f x :: xs else x :: updateFirst p f xs

/-- app.patch of /api/orders/:id/status (src/server.js lines 838-893): find
the order by `id`; 404 if absent; otherwise OVERWRITE `status` with the
request body value — no transition graph is consulted — set `updatedAt`,
write the array back, mirror best-effort, respond with the mutated order.
The notification email has no effect on the store and is omitted. -/
def updateOrderStatusRoute (now : String) (mirrorOk : Bool) (id newStatus : String)
    (st : Store) : ApiResp × Store :=
  match st.orders.find? (fun o => o.id == id) with
  | none => (ApiResp.err 404 "Order not found", st)
  | some o =>
    let o2 := { o with status := newStatus, updatedAt := some now }
    let orders2 := updateFirst (fun x => x.id == id)
        (fun x => { x with status := newStatus, updatedAt := some now }) st.orders
    let st2 := saveToDynamoDB mirrorOk { st with orders := orders2 } o2
    (ApiResp.ok o2, st2)

/-- app.patch of /api/orders/:id/cancel (src/server.js lines 896-921): find
the order; 404 if absent; 400 unless its status is pending or confirmed;
otherwise set status to cancelled, set `updatedAt`, persist and mirror. -/
def cancelOrderRoute (now : String) (mirrorOk : Bool) (id : String)
    (st : Store) : ApiResp × Store :=
  match st.orders.find? (fun o => o.id == id) with
  | none => (ApiResp.err 404 "Order not found", st)
  | some o =>
    if o.status = "pending" ∨ o.status = "confirmed" then
      let o2 := { o with status := "cancelled", updatedAt := some now }
      let orders2 := updateFirst (fun x => x.id == id)
          (fun x => { x with status := "cancelled", updatedAt := some now }) st.orders
      let st2 := saveToDynamoDB mirrorOk { st with orders := orders2 } o2
      (ApiResp.ok o2, st2)
    else
      (ApiResp.err 400 "Order cannot be cancelled at this stage", st)

/-!
Interleaving model for logically concurrent `generateOrderID` calls.

`generateOrderID` is `await readFromJSON` / synchronous mutation /
`await saveToJSON`; in the single-threaded event loop other requests may run
between the completion of the read and the write. A call is therefore split
into two atomic segments: taking the snapshot, and computing from the
snapshot plus writing the result back. A schedule is the list of call
indices in the order their next segment runs.
-/

/-- Progress of one in-flight `generateOrderID` call. -/
inductive AllocPhase where
  | start
  | readDone (snapshot : CounterRec)
  | done (code : String)
  deriving Repr, DecidableEq

/-- Shared counter file plus the per-call progress of the in-flight calls. -/
structure AllocSys where
  file : CounterRec
  calls : List AllocPhase
  deriving Repr, DecidableEq

/-- Run the next atomic segment of call `i`: its read if pending, else its
compute-and-write. A finished or out-of-range call leaves the state alone. -/
def allocStep (today : String) (sys : AllocSys) (i : Nat) : AllocSys :=
  match sys.calls[i]? with
  | none => sys
  | some AllocPhase.start =>
    { sys with calls := sys.calls.set i (AllocPhase.readDone sys.file) }
  | some (AllocPhase.readDone s) =>
    let (c2, code) := generateOrderID today s
    { file := c2, calls := sys.calls.set i (AllocPhase.done code) }
  | some (AllocPhase.done _) => sys

/-- Run a whole schedule of atomic segments. -/
def runSchedule (today : String) (sys : AllocSys) : List Nat → AllocSys
  | [] => sys
  | i :: rest => runSchedule today (allocStep today sys i) rest

/-- Sample pair of dates for concrete executions. -/
def day0 : String := "Fri Oct 10 2025"

/-- The day after `day0`. -/
def day1 : String := "Sat Oct 11 2025"

/-- C1. The spec requires N concurrent same-day allocations to yield pairwise
distinct codes forming CC-#1 … CC-#N. The source serializes nothing: under
the schedule read0, read1, write0, write1 both calls snapshot the same
counter file and BOTH return CC-#1 — a duplicate code, refuting pairwise
distinctness (and contiguity, since CC-#2 is never produced). -/
theorem generateOrderID_race_duplicate :
    (runSchedule day1
        { file := { date := day0, counter := 5 }, calls := [AllocPhase.start, AllocPhase.start] }
        [0, 1, 0, 1]).calls
      = [AllocPhase.done "CC-#1", AllocPhase.done "CC-#1"] := by
  decide

/-- C2. `generateOrderID` on a stored counter: if the stored date differs
from today, the counter resets to 1 regardless of its prior value, the date
becomes today, the persisted counter is exactly the returned one, and the
code is CC-#1; on the same day the counter increments by exactly 1 and the
code carries the incremented value. -/
theorem generateOrderID_reset_or_increment (c : CounterRec) (today : String) :
    (c.date ≠ today →
      generateOrderID today c = ({ date := today, counter := 1 }, "CC-#1")) ∧
    (c.date = today →
      generateOrderID today c
        = ({ date := c.date, counter := c.counter + 1 },
           "CC-#" ++ toString (c.counter + 1))) := by
  constructor
  · intro h
    simp [generateOrderID, h]
    rfl
  · intro h
    simp [generateOrderID, h]

/-- Witness for C2: both branches at concrete counters. A stale counter of 41
resets to 1 on the new day; a same-day counter of 41 increments to 42. -/
theorem generateOrderID_reset_or_increment_witness :
    generateOrderID day1 { date := day0, counter := 41 }
      = ({ date := day1, counter := 1 }, "CC-#1") ∧
    generateOrderID day1 { date := day1, counter := 41 }
      = ({ date := day1, counter := 42 }, "CC-#42") :=
  ⟨(generateOrderID_reset_or_increment { date := day0, counter := 41 } day1).1
      (by decide),
   (generateOrderID_reset_or_increment { date := day1, counter := 41 } day1).2 rfl⟩

/-! Helper lemmas about `updateFirst`, the write-back of an in-place mutation
of the first list element matched by a predicate. -/

/-- Writing back the array after mutating one element preserves its length. -/
theorem updateFirst_length (p : α → Bool) (f : α → α) (l : List α) :
    (updateFirst p f l).length = l.length := by
  induction l with
  | nil => rfl
  | cons x xs ih =>
    simp only [updateFirst]
    cases hpx : p x <;> simp [hpx, ih]

/-- Every position other than that of the first match is untouched. -/
theorem updateFirst_getElem?_ne (p : α → Bool) (f : α → α) (l : List α) (j : Nat)
    (hj : j ≠ l.findIdx p) : (updateFirst p f l)[j]? = l[j]? := by
  induction l generalizing j with
  | nil => simp [updateFirst]
  | cons x xs ih =>
    cases hpx : p x with
    | true =>
      rw [List.findIdx_cons, hpx] at hj
      simp only [cond_true] at hj
      cases j with
      | zero => exact absurd rfl hj
      | succ n => simp [updateFirst, hpx]
    | false =>
      rw [List.findIdx_cons, hpx] at hj
      simp only [cond_false] at hj
      cases j with
      | zero => simp [updateFirst, hpx]
      | succ n =>
        simp only [updateFirst, hpx, Bool.false_eq_true, if_false,
          List.getElem?_cons_succ]
        exact ih n (fun hh => hj (by omega))

/-- The position of the first match holds the mutated element. -/
theorem updateFirst_getElem?_findIdx (p : α → Bool) (f : α → α) (l : List α) (o : α)
    (h : l.find? p = some o) :
    (updateFirst p f l)[l.findIdx p]? = some (f o) := by
  induction l with
  | nil => simp at h
  | cons x xs ih =>
    cases hpx : p x with
    | true =>
      have hox : o = x := by
        rw [List.find?_cons_of_pos _ hpx] at h
        exact (Option.some_inj.mp h).symm
      subst hox
      simp [updateFirst, hpx, List.findIdx_cons]
    | false =>
      have h2 : xs.find? p = some o := by
        rwa [List.find?_cons_of_neg _ (by simp [hpx])] at h
      simp only [updateFirst, hpx, Bool.false_eq_true, if_false,
        List.findIdx_cons, cond_false, List.getElem?_cons_succ]
      exact ih h2

/-! Concrete sample data used by the closed-form theorems. -/

/-- The line items of the scenario in the spec (section 8). -/
def sampleItems : List Item := [{ itemId := "A", quantity := 2, unitPrice := 50 }]

/-- A pending order. -/
def orderPending : OrderRec :=
  { id := "ord-p", orderId := "CC-#1", userId := "u1", adminId := "a1",
    items := sampleItems, totalAmount := 100, paymentMethod := "upi",
    orderType := "instant", scheduledTime := none, status := "pending",
    otp := "1234", createdAt := "t0", updatedAt := none, pickup := "Canteen Pickup" }

/-- An order already delivered. -/
def orderDelivered : OrderRec := { orderPending with id := "ord-d", status := "delivered" }

/-- The owner of the sample orders. -/
def userU1 : UserRec :=
  { id := "u1", name := "Asha", phone := "999", email := "a@x", notifications := true }

/-- A store holding the given collections, a fresh counter and an empty mirror. -/
def mkStore (orders : List OrderRec) (users : List UserRec) : Store :=
  { orders := orders, users := users, counter := { date := day1, counter := 0 },
    mirror := [], mirrorAttempts := 0 }

/-- C3. The spec says a status change out of the terminal `delivered` state
fails with IllegalTransition and leaves the order unchanged. The route
consults no transition graph: on a concrete delivered order, requesting
status `pending` SUCCEEDS, answers the mutated order, and overwrites the
stored status — refuting the claim on the code. -/
theorem setStatus_from_delivered_succeeds :
    updateOrderStatusRoute "t1" true "ord-d" "pending" (mkStore [orderDelivered] [userU1])
      = (ApiResp.ok { orderDelivered with status := "pending", updatedAt := some "t1" },
         { orders := [{ orderDelivered with status := "pending", updatedAt := some "t1" }],
           users := [userU1], counter := { date := day1, counter := 0 },
           mirror := [{ orderDelivered with status := "pending", updatedAt := some "t1" }],
           mirrorAttempts := 1 }) := by
  decide

/-- Counterexample for C4: `cancelled` is not terminal in the code. Cancel a
pending order (this succeeds, status becomes cancelled), then request status
`confirmed` on it: the status route succeeds and moves the order out of
`cancelled`, refuting the sub-claim that no further transition succeeds
after a successful cancellation. -/
theorem cancelled_not_terminal_counterexample :
    (cancelOrderRoute "t1" true "ord-p" (mkStore [orderPending] [userU1])).1
      = ApiResp.ok { orderPending with status := "cancelled", updatedAt := some "t1" } ∧
    (updateOrderStatusRoute "t2" true "ord-p" "confirmed"
        (cancelOrderRoute "t1" true "ord-p" (mkStore [orderPending] [userU1])).2).1
      = ApiResp.ok { orderPending with status := "confirmed", updatedAt := some "t2" } := by
  decide

/-- C4 (amended). For an existing order, `cancelOrder` succeeds exactly when
the status is pending or confirmed; on success the response carries status
`cancelled` with `updatedAt` set and the stored record is updated likewise;
otherwise the route fails with the 400 NotCancellable response and the store
is unchanged — in particular a second cancellation of a cancelled order
fails, so `cancelled` is terminal FOR `cancelOrder` (though not for
`setStatus`, see the counterexample). -/
theorem cancelOrder_iff_pending_or_confirmed (now : String) (mk : Bool) (id : String)
    (st : Store) (o : OrderRec)
    (h : st.orders.find? (fun x => x.id == id) = some o) :
    ((o.status = "pending" ∨ o.status = "confirmed") →
      (cancelOrderRoute now mk id st).1
          = ApiResp.ok { o with status := "cancelled", updatedAt := some now } ∧
      (cancelOrderRoute now mk id st).2.orders[st.orders.findIdx (fun x => x.id == id)]?
          = some { o with status := "cancelled", updatedAt := some now }) ∧
    (¬(o.status = "pending" ∨ o.status = "confirmed") →
      cancelOrderRoute now mk id st
          = (ApiResp.err 400 "Order cannot be cancelled at this stage", st)) ∧
    (o.status = "cancelled" →
      cancelOrderRoute now mk id st
          = (ApiResp.err 400 "Order cannot be cancelled at this stage", st)) := by
  refine ⟨?_, ?_, ?_⟩
  · intro hs
    constructor
    · simp [cancelOrderRoute, h, hs]
    · simp only [cancelOrderRoute, h, if_pos hs, saveToDynamoDB]
      exact updateFirst_getElem?_findIdx _ _ _ _ h
  · intro hs
    simp [cancelOrderRoute, h, hs]
  · intro hs
    have hns : ¬(o.status = "pending" ∨ o.status = "confirmed") := by
      rw [hs]; simp
    simp [cancelOrderRoute, h, hns]

/-- Witness for C4: on a concrete store, cancelling the pending order
succeeds with status `cancelled`, and cancelling the delivered order fails
with the NotCancellable response leaving the store unchanged. -/
theorem cancelOrder_iff_pending_or_confirmed_witness :
    ((cancelOrderRoute "t1" false "ord-p" (mkStore [orderPending, orderDelivered] [userU1])).1
        = ApiResp.ok { orderPending with status := "cancelled", updatedAt := some "t1" } ∧
      (cancelOrderRoute "t1" false "ord-p"
          (mkStore [orderPending, orderDelivered] [userU1])).2.orders[
        (mkStore [orderPending, orderDelivered] [userU1]).orders.findIdx
          (fun x => x.id == "ord-p")]?
        = some { orderPending with status := "cancelled", updatedAt := some "t1" }) ∧
    cancelOrderRoute "t1" false "ord-d" (mkStore [orderPending, orderDelivered] [userU1])
        = (ApiResp.err 400 "Order cannot be cancelled at this stage",
           mkStore [orderPending, orderDelivered] [userU1]) :=
  ⟨(cancelOrder_iff_pending_or_confirmed "t1" false "ord-p"
      (mkStore [orderPending, orderDelivered] [userU1]) orderPending (by decide)).1
      (Or.inl rfl),
   (cancelOrder_iff_pending_or_confirmed "t1" false "ord-d"
      (mkStore [orderPending, orderDelivered] [userU1]) orderDelivered (by decide)).2.1
      (by decide)⟩

/-- C5. The list route with no filter returns as many entries as there are
stored orders, and the entry at position i is the enrichment of the stored
order at position length - 1 - i: exactly the reverse of the insertion
order of the durable collection, most recently created first, each entry
enriched with the owner display name and phone via `enrichOrder`. -/
theorem getOrders_no_filter_reverse (st : Store) :
    (getOrdersRoute none none none st).length = st.orders.length ∧
    ∀ i, i < st.orders.length →
      (getOrdersRoute none none none st)[i]?
        = (st.orders[st.orders.length - 1 - i]?).map (enrichOrder st.users) := by
  have hdef : getOrdersRoute none none none st
      = (st.orders.map (enrichOrder st.users)).reverse := rfl
  constructor
  · rw [hdef, List.length_reverse, List.length_map]
  · intro i hi
    rw [hdef, List.getElem?_reverse (by simpa using hi), List.length_map,
      List.getElem?_map]

/-- Witness for C5: on a store with two orders the first returned entry is
the enrichment of the LAST stored order. -/
theorem getOrders_no_filter_reverse_witness :
    0 < (mkStore [orderPending, orderDelivered] [userU1]).orders.length ∧
    (getOrdersRoute none none none (mkStore [orderPending, orderDelivered] [userU1]))[0]?
      = ((mkStore [orderPending, orderDelivered] [userU1]).orders[
          (mkStore [orderPending, orderDelivered] [userU1]).orders.length - 1 - 0]?).map
          (enrichOrder (mkStore [orderPending, orderDelivered] [userU1]).users) :=
  ⟨by decide,
   (getOrders_no_filter_reverse (mkStore [orderPending, orderDelivered] [userU1])).2
     0 (by decide)⟩

/-- C6. A failing DynamoDB mirror write during order creation is invisible:
the HTTP response, the durable orders collection, the persisted counter and
the users collection are identical whether the mirror write succeeds or
fails, and in either case exactly one mirror write is attempted (never
retried). -/
theorem createOrder_mirror_failure_invisible
    (today freshId otp createdAt userId adminId : String)
    (items : List Item) (totalAmount : Nat) (paymentMethod : String)
    (orderType scheduledTime : Option String) (st : Store) :
    (createOrderRoute today freshId otp createdAt true userId adminId items totalAmount
        paymentMethod orderType scheduledTime st).1
      = (createOrderRoute today freshId otp createdAt false userId adminId items
          totalAmount paymentMethod orderType scheduledTime st).1 ∧
    (createOrderRoute today freshId otp createdAt true userId adminId items totalAmount
        paymentMethod orderType scheduledTime st).2.orders
      = (createOrderRoute today freshId otp createdAt false userId adminId items
          totalAmount paymentMethod orderType scheduledTime st).2.orders ∧
    (createOrderRoute today freshId otp createdAt true userId adminId items totalAmount
        paymentMethod orderType scheduledTime st).2.counter
      = (createOrderRoute today freshId otp createdAt false userId adminId items
          totalAmount paymentMethod orderType scheduledTime st).2.counter ∧
    (createOrderRoute today freshId otp createdAt true userId adminId items totalAmount
        paymentMethod orderType scheduledTime st).2.users
      = (createOrderRoute today freshId otp createdAt false userId adminId items
          totalAmount paymentMethod orderType scheduledTime st).2.users ∧
    (createOrderRoute today freshId otp createdAt true userId adminId items totalAmount
        paymentMethod orderType scheduledTime st).2.mirrorAttempts
      = st.mirrorAttempts + 1 ∧
    (createOrderRoute today freshId otp createdAt false userId adminId items totalAmount
        paymentMethod orderType scheduledTime st).2.mirrorAttempts
      = st.mirrorAttempts + 1 := by
  cases hfind : st.users.find? (fun u => u.id == userId) <;>
    simp [createOrderRoute, saveToDynamoDB, hfind]

/-- Typed recoverable failure in the sense of the spec (section 7): an error
response surfaced with a clear, condition-specific client error code, the
way the source surfaces OrderNotFound (404) and NotCancellable (400) — as
opposed to the generic 500 catch-all that carries a raw exception message. -/
def specTypedFailure (r : ApiResp) : Bool :=
  match r with
  | ApiResp.ok _ => false
  | ApiResp.err s _ => decide (400 ≤ s) && decide (s < 500)

/-- Counterexample for C7: creating an order for an owner id that resolves to
no user does fail, but as the generic 500 response carrying the TypeError
message from the crashed `user.email` access — not a typed OwnerNotFound
failure with a clear error code. -/
theorem createOrder_ownerNotFound_untyped :
    (createOrderRoute day1 "id-1" "1234" "t0" true "ghost" "a1" sampleItems 100 "upi"
        none none (mkStore [] [userU1])).1
      = ApiResp.err 500 undefinedEmailMsg ∧
    specTypedFailure
        (createOrderRoute day1 "id-1" "1234" "t0" true "ghost" "a1" sampleItems 100 "upi"
          none none (mkStore [] [userU1])).1
      = false := by
  decide

/-- C7 (amended). When the ownerId resolves to no stored user, createOrder
fails — but with the generic 500 internal-error response whose message is
the JS TypeError text from the `user.email` access, not with a typed
OwnerNotFound error code. -/
theorem createOrder_ownerNotFound_generic500
    (today freshId otp createdAt userId adminId : String)
    (items : List Item) (totalAmount : Nat) (paymentMethod : String)
    (orderType scheduledTime : Option String) (mk : Bool) (st : Store)
    (h : st.users.find? (fun u => u.id == userId) = none) :
    (createOrderRoute today freshId otp createdAt mk userId adminId items totalAmount
        paymentMethod orderType scheduledTime st).1
      = ApiResp.err 500 undefinedEmailMsg := by
  simp [createOrderRoute, saveToDynamoDB, h]

/-- Witness for C7: the 500 failure at a concrete store whose only user is
not the requested owner. -/
theorem createOrder_ownerNotFound_generic500_witness :
    ((mkStore [] [userU1]).users.find? (fun u => u.id == "ghost") = none) ∧
    (createOrderRoute day1 "id-2" "1234" "t0" false "ghost" "a1" sampleItems 100 "upi"
        none none (mkStore [] [userU1])).1
      = ApiResp.err 500 undefinedEmailMsg :=
  ⟨by decide,
   createOrder_ownerNotFound_generic500 day1 "id-2" "1234" "t0" "ghost" "a1"
     sampleItems 100 "upi" none none false (mkStore [] [userU1]) (by decide)⟩

/-- C8. When the underlying read of the orders collection fails, readFromJSON
returns the EMPTY OBJECT default, not an empty record sequence: the source
tests `Array.isArray(filename)`, and a filename string is never an array.
The write half of the claim does hold: a failed saveToJSON leaves the old
durable contents, logs, and returns normally without propagating anything. -/
theorem readFromJSON_failure_returns_object :
    readFromJSON (List OrderRec) "orders.json" none = ReadResult.emptyObject ∧
    (ReadResult.emptyObject : ReadResult (List OrderRec)) ≠ ReadResult.emptyArray ∧
    saveToJSON (List OrderRec) false (some [orderPending]) []
      = (some [orderPending], true) := by
  decide

/-- C9. When the ownerId resolves to no user, createOrder still leaves the
freshly built order — status pending, the allocated code, the generated
OTP — appended to the durable orders collection, and leaves the daily
counter advanced to its post-allocation value: the failure is not atomic. -/
theorem createOrder_owner_failure_not_atomic
    (today freshId otp createdAt userId adminId : String)
    (items : List Item) (totalAmount : Nat) (paymentMethod : String)
    (orderType scheduledTime : Option String) (mk : Bool) (st : Store)
    (h : st.users.find? (fun u => u.id == userId) = none) :
    (createOrderRoute today freshId otp createdAt mk userId adminId items totalAmount
        paymentMethod orderType scheduledTime st).1
      = ApiResp.err 500 undefinedEmailMsg ∧
    (createOrderRoute today freshId otp createdAt mk userId adminId items totalAmount
        paymentMethod orderType scheduledTime st).2.orders
      = st.orders
        ++ [newOrder freshId (generateOrderID today st.counter).2 otp createdAt userId
              adminId items totalAmount paymentMethod orderType scheduledTime] ∧
    (newOrder freshId (generateOrderID today st.counter).2 otp createdAt userId adminId
        items totalAmount paymentMethod orderType scheduledTime).status = "pending" ∧
    (newOrder freshId (generateOrderID today st.counter).2 otp createdAt userId adminId
        items totalAmount paymentMethod orderType scheduledTime).otp = otp ∧
    (newOrder freshId (generateOrderID today st.counter).2 otp createdAt userId adminId
        items totalAmount paymentMethod orderType scheduledTime).orderId
      = (generateOrderID today st.counter).2 ∧
    (createOrderRoute today freshId otp createdAt mk userId adminId items totalAmount
        paymentMethod orderType scheduledTime st).2.counter
      = (generateOrderID today st.counter).1 := by
  refine ⟨?_, ?_, rfl, rfl, rfl, ?_⟩
  · simp [createOrderRoute, saveToDynamoDB, h]
  · simp [createOrderRoute, saveToDynamoDB, h]
  · simp [createOrderRoute, saveToDynamoDB, h]

/-- Witness for C9: at a concrete store with an unresolvable owner, the
failing creation has stored the order and advanced the counter. -/
theorem createOrder_owner_failure_not_atomic_witness :
    ((mkStore [orderPending] [userU1]).users.find? (fun u => u.id == "ghost") = none) ∧
    (createOrderRoute day1 "id-3" "5678" "t5" true "ghost" "a1" sampleItems 100 "upi"
        none none (mkStore [orderPending] [userU1])).2.orders
      = (mkStore [orderPending] [userU1]).orders
        ++ [newOrder "id-3"
              (generateOrderID day1 (mkStore [orderPending] [userU1]).counter).2 "5678"
              "t5" "ghost" "a1" sampleItems 100 "upi" none none] :=
  ⟨by decide,
   (createOrder_owner_failure_not_atomic day1 "id-3" "5678" "t5" "ghost" "a1"
     sampleItems 100 "upi" none none true (mkStore [orderPending] [userU1])
     (by decide)).2.1⟩

/-- C10. A successful status update on an existing order (the first one
matching the id) changes only that order and only its `status` and
`updatedAt` fields; the collection keeps its length, every other position is
untouched, and every other field of the target — id, orderId, userId,
adminId, items, totalAmount, paymentMethod, orderType, scheduledTime, otp,
createdAt, pickup — is unchanged. -/
theorem setStatus_frame (now : String) (mk : Bool) (id s : String) (st : Store)
    (o : OrderRec) (h : st.orders.find? (fun x => x.id == id) = some o) :
    (updateOrderStatusRoute now mk id s st).2.orders.length = st.orders.length ∧
    (∀ j, j ≠ st.orders.findIdx (fun x => x.id == id) →
      (updateOrderStatusRoute now mk id s st).2.orders[j]? = st.orders[j]?) ∧
    (∃ o2,
      (updateOrderStatusRoute now mk id s st).2.orders[
          st.orders.findIdx (fun x => x.id == id)]? = some o2 ∧
      o2.status = s ∧ o2.updatedAt = some now ∧ o2.id = o.id ∧
      o2.orderId = o.orderId ∧ o2.userId = o.userId ∧ o2.adminId = o.adminId ∧
      o2.items = o.items ∧ o2.totalAmount = o.totalAmount ∧
      o2.paymentMethod = o.paymentMethod ∧ o2.orderType = o.orderType ∧
      o2.scheduledTime = o.scheduledTime ∧ o2.otp = o.otp ∧
      o2.createdAt = o.createdAt ∧ o2.pickup = o.pickup) := by
  have horders : (updateOrderStatusRoute now mk id s st).2.orders
      = updateFirst (fun x => x.id == id)
          (fun x => { x with status := s, updatedAt := some now }) st.orders := by
    simp [updateOrderStatusRoute, h, saveToDynamoDB]
  refine ⟨?_, ?_, ?_⟩
  · rw [horders]
    exact updateFirst_length _ _ _
  · intro j hj
    rw [horders]
    exact updateFirst_getElem?_ne _ _ _ j hj
  · refine ⟨{ o with status := s, updatedAt := some now }, ?_, rfl, rfl, rfl, rfl,
      rfl, rfl, rfl, rfl, rfl, rfl, rfl, rfl, rfl, rfl⟩
    rw [horders]
    exact updateFirst_getElem?_findIdx _ _ _ _ h

/-- Witness for C10: updating the second of two stored orders keeps the
collection length and leaves position 0 untouched. -/
theorem setStatus_frame_witness :
    (updateOrderStatusRoute "t3" true "ord-d" "ready"
        (mkStore [orderPending, orderDelivered] [userU1])).2.orders.length
      = (mkStore [orderPending, orderDelivered] [userU1]).orders.length ∧
    (updateOrderStatusRoute "t3" true "ord-d" "ready"
        (mkStore [orderPending, orderDelivered] [userU1])).2.orders[0]?
      = (mkStore [orderPending, orderDelivered] [userU1]).orders[0]? :=
  ⟨(setStatus_frame "t3" true "ord-d" "ready"
      (mkStore [orderPending, orderDelivered] [userU1]) orderDelivered (by decide)).1,
   (setStatus_frame "t3" true "ord-d" "ready"
      (mkStore [orderPending, orderDelivered] [userU1]) orderDelivered (by decide)).2.1
     0 (by decide)⟩

end CampusCanteen
